import Mathlib

/-!
Verification of the nexq job-queue core against its source.

The embedding follows the Go sources:
  internal/task/task.go       -- task model, serialization, dead-letter predicate
  internal/queue/queue.go     -- cache-backed queue engine (Enqueue, Dequeue, UpdateTask,
                                 MoveToDeadLetter, GetTask); the cache is modelled as
                                 association lists keyed the way the redis keys are
                                 (queue:item:{seq}, task:{id}, dlq:item:{seq}, dlq:task:{id},
                                 cancelled:{id}) with the head/tail integer counters explicit
  internal/worker/worker.go   -- worker loop (processTask, handleTaskFailure)
  internal/api/handlers.go    -- createTask and handleCancelTask HTTP handlers

Machine times are modelled as integers (seconds); Go durations are converted
(10 s backoff, 300 s handler deadline).  The JSON layer of encoding/json is
modelled as a tree of JSON values: the string rendering and parsing of the Go
standard library is taken as a faithful bijection on these trees, with a
`time` leaf standing for the RFC3339 rendering of a `time.Time` instant.
-/

namespace Nexq

/-- A JSON value tree, the image of Go's `encoding/json` marshalling.
The `time` constructor stands for the RFC3339 string a `time.Time` marshals
to, carrying the instant it denotes. -/
inductive Json where
  | null : Json
  | bool (b : Bool) : Json
  | num (n : Int) : Json
  | str (s : String) : Json
  | time (t : Int) : Json
  | arr (xs : List Json) : Json
  | obj (fields : List (String × Json)) : Json

/-- Task statuses are plain strings in the source (`type TaskStatus string`). -/
abbrev TaskStatus := String

/-- Constant `PendingStatus` of internal/task/task.go. -/
def pendingStatus : TaskStatus := "pending"
/-- Constant `RunningStatus` of internal/task/task.go. -/
def runningStatus : TaskStatus := "running"
/-- Constant `CompletedStatus` of internal/task/task.go. -/
def completedStatus : TaskStatus := "completed"
/-- Constant `FailedStatus` of internal/task/task.go. -/
def failedStatus : TaskStatus := "failed"
/-- Constant `DeadLetterStatus` of internal/task/task.go. -/
def deadLetterStatus : TaskStatus := "dead_letter"
/-- Constant `CancelledStatus`: referenced by worker.go and the test suite;
its declaration is not in the source snapshot, the spec lists `cancelled`
among the statuses. -/
def cancelledStatus : TaskStatus := "cancelled"

/-- Task priorities are plain integers in the source (`type TaskPriority int`). -/
abbrev TaskPriority := Int

/-- Constant `LowPriority` (iota = 0). -/
def lowPriority : TaskPriority := 0
/-- Constant `MediumPriority` (iota = 1). -/
def mediumPriority : TaskPriority := 1
/-- Constant `HighPriority` (iota = 2). -/
def highPriority : TaskPriority := 2

/-- The task model of internal/task/task.go.  `payload` models the Go
`map[string]any` as an optional association list (`none` is the nil map,
which marshals to JSON null).  Optional timestamps are `Option Int`
(nil pointers marshal to an omitted field under `omitempty`). -/
structure Task where
  id : String
  type : String
  payload : Option (List (String × Json))
  priority : TaskPriority
  status : TaskStatus
  retryCount : Int
  maxRetries : Int
  createdAt : Int
  scheduledAt : Int
  startedAt : Option Int
  completedAt : Option Int
  error : String
  failureReason : String
  moveToDLQAt : Option Int

/-- Constructor `NewTask` of internal/task/task.go.  The generated UUID and
the wall clock are passed in as parameters `id` and `now`. -/
def newTask (id ty : String) (payload : Option (List (String × Json)))
    (priority : TaskPriority) (now : Int) : Task :=
  { id := id, type := ty, payload := payload, priority := priority,
    status := pendingStatus, retryCount := 0, maxRetries := 3,
    createdAt := now, scheduledAt := now, startedAt := none,
    completedAt := none, error := "", failureReason := "", moveToDLQAt := none }

/-- Predicate `ShouldMoveToDeadLetter` of internal/task/task.go:
`t.RetryCount >= t.MaxRetries && t.Status == FailedStatus`. -/
def Task.shouldMoveToDeadLetter (t : Task) : Bool :=
  t.retryCount ≥ t.maxRetries && t.status == failedStatus

/-- Optional timestamp field under `json:"...,omitempty"`: a nil pointer is
omitted, a set pointer marshals the instant. -/
def optTimeField (k : String) : Option Int → List (String × Json)
  | none => []
  | some n => [(k, Json.time n)]

/-- String field under `json:"...,omitempty"`: the empty string is omitted. -/
def optStrField (k : String) (s : String) : List (String × Json) :=
  if s = "" then [] else [(k, Json.str s)]

/-- A Go `map[string]any` marshals to null when nil, else to an object. -/
def payloadJson : Option (List (String × Json)) → Json
  | none => Json.null
  | some fs => Json.obj fs

/-- Method `ToJSON` of internal/task/task.go: `json.Marshal` of the struct,
fields in declaration order, honouring the `json:` tags above. -/
def Task.toJSON (t : Task) : Json :=
  Json.obj (
    [("id", Json.str t.id),
     ("type", Json.str t.type),
     ("payload", payloadJson t.payload),
     ("priority", Json.num t.priority),
     ("status", Json.str t.status),
     ("retry_count", Json.num t.retryCount),
     ("max_retries", Json.num t.maxRetries),
     ("created_at", Json.time t.createdAt),
     ("scheduled_at", Json.time t.scheduledAt)]
    ++ optTimeField "started_at" t.startedAt
    ++ optTimeField "completed_at" t.completedAt
    ++ optStrField "error" t.error
    ++ optStrField "failure_reason" t.failureReason
    ++ optTimeField "moved_to_dlq_at" t.moveToDLQAt)

/-- Field lookup in a JSON object, as `json.Unmarshal` matches keys to tags. -/
def jget : List (String × Json) → String → Option Json
  | [], _ => none
  | (k, v) :: rest, key => if k = key then some v else jget rest key

/-- Decode a string field: a missing key or null leaves the zero value "". -/
def getStr (fs : List (String × Json)) (k : String) : Option String :=
  match jget fs k with
  | none => some ""
  | some (Json.str s) => some s
  | some Json.null => some ""
  | some _ => none

/-- Decode an integer field: a missing key or null leaves the zero value 0. -/
def getNum (fs : List (String × Json)) (k : String) : Option Int :=
  match jget fs k with
  | none => some 0
  | some (Json.num n) => some n
  | some Json.null => some 0
  | some _ => none

/-- Decode a `time.Time` field: a missing key or null leaves the zero time. -/
def getTime (fs : List (String × Json)) (k : String) : Option Int :=
  match jget fs k with
  | none => some 0
  | some (Json.time n) => some n
  | some Json.null => some 0
  | some _ => none

/-- Decode a `*time.Time` field: a missing key or null leaves the nil pointer. -/
def getOptTime (fs : List (String × Json)) (k : String) : Option (Option Int) :=
  match jget fs k with
  | none => some none
  | some Json.null => some none
  | some (Json.time n) => some (some n)
  | some _ => none

/-- Decode the payload map: a missing key or null leaves the nil map. -/
def getPayload (fs : List (String × Json)) (k : String) :
    Option (Option (List (String × Json))) :=
  match jget fs k with
  | none => some none
  | some Json.null => some none
  | some (Json.obj inner) => some (some inner)
  | some _ => none

/-- Function `TaskFromJSON` of internal/task/task.go: `json.Unmarshal` into a
fresh zero `Task`, failing on a type mismatch. -/
def taskFromJSON : Json → Option Task
  | Json.obj fs =>
    match getStr fs "id", getStr fs "type", getPayload fs "payload",
          getNum fs "priority", getStr fs "status", getNum fs "retry_count",
          getNum fs "max_retries", getTime fs "created_at",
          getTime fs "scheduled_at", getOptTime fs "started_at",
          getOptTime fs "completed_at", getStr fs "error",
          getStr fs "failure_reason", getOptTime fs "moved_to_dlq_at" with
    | some i, some ty, some pl, some pr, some st, some rc, some mr, some ca,
      some sa, some sta, some coa, some er, some fr, some dl =>
        some { id := i, type := ty, payload := pl, priority := pr, status := st,
               retryCount := rc, maxRetries := mr, createdAt := ca,
               scheduledAt := sa, startedAt := sta, completedAt := coa,
               error := er, failureReason := fr, moveToDLQAt := dl }
    | _, _, _, _, _, _, _, _, _, _, _, _, _, _ => none
  | _ => none

/-- C9: deserializing the result of serializing any task yields the task back,
all fields included (optional timestamps and the payload mapping). -/
theorem c9_serialization_roundtrip (t : Task) :
    taskFromJSON t.toJSON = some t := by
  obtain ⟨i, ty, pl, pr, st, rc, mr, ca, sa, sta, coa, er, fr, dl⟩ := t
  cases pl <;> cases sta <;> cases coa <;> cases dl <;>
    by_cases he : er = "" <;> by_cases hf : fr = "" <;>
      simp [Task.toJSON, taskFromJSON, optTimeField, optStrField, payloadJson,
        jget, getStr, getNum, getTime, getOptTime, getPayload, he, hf]

/-- Lookup in an association list, the model of a cache `Get`. -/
def aget {α β : Type} [DecidableEq α] : List (α × β) → α → Option β
  | [], _ => none
  | (k, v) :: rest, key => if k = key then some v else aget rest key

/-- Deletion from an association list, the model of a cache `Del`. -/
def adel {α β : Type} [DecidableEq α] : List (α × β) → α → List (α × β)
  | [], _ => []
  | (k, v) :: rest, key =>
      if k = key then adel rest key else (k, v) :: adel rest key

/-- Overwrite in an association list, the model of a cache `Set`. -/
def aset {α β : Type} [DecidableEq α] (l : List (α × β)) (k : α) (v : β) :
    List (α × β) :=
  (k, v) :: adel l k

theorem aget_aset_self {α β : Type} [DecidableEq α]
    (l : List (α × β)) (k : α) (v : β) : aget (aset l k v) k = some v := by
  simp [aset, aget]

theorem aget_adel {α β : Type} [DecidableEq α]
    (l : List (α × β)) (k k' : α) (h : k ≠ k') :
    aget (adel l k') k = aget l k := by
  induction l with
  | nil => rfl
  | cons hd tl ih =>
    obtain ⟨k0, v0⟩ := hd
    by_cases h0 : k0 = k'
    · subst h0
      simp [adel, aget, Ne.symm h, ih]
    · by_cases h1 : k0 = k <;> simp [adel, aget, h0, h1, h, ih]

theorem aget_aset_ne {α β : Type} [DecidableEq α]
    (l : List (α × β)) (k k' : α) (v : β) (h : k ≠ k') :
    aget (aset l k' v) k = aget l k := by
  simp [aset, aget, Ne.symm h, aget_adel _ _ _ h]

/-- The cache state owned by the queue engine of internal/queue/queue.go:
the `queue:head` / `queue:tail` counters, the `queue:item:{seq}` and
`task:{id}` keys, the DLQ counterparts, and the `cancelled:{id}` flags.
Task values stand for their serialized JSON (lossless per
`c9_serialization_roundtrip`). -/
structure QState where
  qhead : Nat
  qtail : Nat
  items : List (Nat × String)
  tasks : List (String × Task)
  dlqTail : Nat
  dlqItems : List (Nat × String)
  dlqTasks : List (String × Task)
  cancelled : List String

/-- The empty cache. -/
def emptyState : QState :=
  { qhead := 0, qtail := 0, items := [], tasks := [],
    dlqTail := 0, dlqItems := [], dlqTasks := [], cancelled := [] }

/-- History-store configuration and outcome of a history write: the
repository handle may be nil (`absent`), or a write may succeed (`ok`) or
return an error (`fail`).  queue.go only ever logs such an error. -/
inductive RepoMode where
  | absent
  | ok
  | fail
deriving DecidableEq

/-- Method `Enqueue` of internal/queue/queue.go (lines 40-79): when a
repository is configured the task status is forced to pending and
`SaveTask` is attempted with its error merely logged; then
`Incr("queue:tail")` yields the sequence number and the two cache keys are
written.  Returns the final state and the task value visible to the caller
(the Go caller holds a pointer that Enqueue mutates). -/
def enqueueQ (mode : RepoMode) (t : Task) (s : QState) : QState × Task :=
  let t1 := if mode ≠ RepoMode.absent then { t with status := pendingStatus } else t
  let seq := s.qtail + 1
  ({ s with qtail := seq,
            items := aset s.items seq t1.id,
            tasks := aset s.tasks t1.id t1 }, t1)

/-- Result of `Dequeue`: `(nil, nil)` when the queue is empty or the claimed
item key is missing, `(nil, err)` when the `task:{id}` read fails, or the
task. -/
inductive DeqResult where
  | empty
  | errorRes
  | found (t : Task)

/-- Identity of a dequeued task, when one was returned. -/
def DeqResult.taskId : DeqResult → Option String
  | .found t => some t.id
  | _ => none

/-- Type of a dequeued task, when one was returned. -/
def DeqResult.taskType : DeqResult → Option String
  | .found t => some t.type
  | _ => none

/-- Priority of a dequeued task, when one was returned. -/
def DeqResult.taskPriority : DeqResult → Option TaskPriority
  | .found t => some t.priority
  | _ => none

/-- Method `Dequeue` of internal/queue/queue.go (lines 81-130): compare the
head and tail counters, claim the next slot with `Incr("queue:head")`, read
the item key and the task value, set the status to running when a
repository is configured (error logged), delete both keys and return the
task.  `now` is the wall clock, read only for the wait-time metric: the
method consults neither `scheduled_at`, nor `priority`, nor the
cancellation flag. -/
def dequeueQ (mode : RepoMode) (_now : Int) (s : QState) : QState × DeqResult :=
  if s.qhead ≥ s.qtail then (s, DeqResult.empty)
  else
    let newHead := s.qhead + 1
    let s1 := { s with qhead := newHead }
    match aget s1.items newHead with
    | none => (s1, DeqResult.empty)
    | some taskID =>
      match aget s1.tasks taskID with
      | none => (s1, DeqResult.errorRes)
      | some t =>
        let t1 := if mode ≠ RepoMode.absent then { t with status := runningStatus } else t
        ({ s1 with items := adel s1.items newHead,
                   tasks := adel s1.tasks taskID }, DeqResult.found t1)

/-- Method `GetTask` of internal/queue/queue.go: read `task:{id}`. -/
def getTaskQ (s : QState) (id : String) : Option Task :=
  aget s.tasks id

/-- Method `UpdateTask` of internal/queue/queue.go (lines 154-172): a
configured repository gets a best-effort `SaveTask` whose error is only
logged; the cache write `task:{id}` is performed identically in all cases. -/
def updateTaskQ (_mode : RepoMode) (t : Task) (s : QState) : QState :=
  { s with tasks := aset s.tasks t.id t }

/-- Method `MoveToDeadLetter` of internal/queue/queue.go (lines 213-256):
stamp the failure reason, DLQ timestamp and dead-letter status, attempt the
history write (error logged), then `Incr("dlq:tail")` and write the two DLQ
keys. -/
def moveToDeadLetterQ (_mode : RepoMode) (now : Int) (t : Task)
    (reason : String) (s : QState) : QState × Task :=
  let t1 := { t with failureReason := reason, moveToDLQAt := some now,
                     status := deadLetterStatus }
  let seq := s.dlqTail + 1
  ({ s with dlqTail := seq,
            dlqItems := aset s.dlqItems seq t1.id,
            dlqTasks := aset s.dlqTasks t1.id t1 }, t1)

/-- A concrete pending task with the given id, type, priority and
`scheduled_at`, enqueue-time fields as `NewTask` sets them at time 0. -/
def mkTask (id ty : String) (prio : TaskPriority) (sched : Int) : Task :=
  { id := id, type := ty, payload := none, priority := prio,
    status := pendingStatus, retryCount := 0, maxRetries := 3,
    createdAt := 0, scheduledAt := sched, startedAt := none,
    completedAt := none, error := "", failureReason := "", moveToDLQAt := none }

/-- C1 counterexample: enqueue a low-, a medium- and a high-priority task in
that order, all eligible at instant 0 (scheduled_at = 0, not cancelled).
The three dequeues return them in enqueue order low, medium, high — the
first dequeued task has low priority, not high, refuting the claimed
priority ordering. -/
theorem c1_counterexample :
    (dequeueQ RepoMode.absent 0
      (enqueueQ RepoMode.absent (mkTask "c" "high" highPriority 0)
        (enqueueQ RepoMode.absent (mkTask "b" "medium" mediumPriority 0)
          (enqueueQ RepoMode.absent (mkTask "a" "low" lowPriority 0)
            emptyState).1).1).1).2.taskType = some "low"
  ∧ (dequeueQ RepoMode.absent 0
      (dequeueQ RepoMode.absent 0
        (enqueueQ RepoMode.absent (mkTask "c" "high" highPriority 0)
          (enqueueQ RepoMode.absent (mkTask "b" "medium" mediumPriority 0)
            (enqueueQ RepoMode.absent (mkTask "a" "low" lowPriority 0)
              emptyState).1).1).1).1).2.taskType = some "medium"
  ∧ (dequeueQ RepoMode.absent 0
      (dequeueQ RepoMode.absent 0
        (dequeueQ RepoMode.absent 0
          (enqueueQ RepoMode.absent (mkTask "c" "high" highPriority 0)
            (enqueueQ RepoMode.absent (mkTask "b" "medium" mediumPriority 0)
              (enqueueQ RepoMode.absent (mkTask "a" "low" lowPriority 0)
                emptyState).1).1).1).1).1).2.taskType = some "high"
  ∧ ("low" : String) ≠ "high" := by
  refine ⟨by decide, by decide, by decide, by decide⟩

/-- C1 amended: Dequeue returns tasks in enqueue-sequence (FIFO) order and
never consults priority: for any two tasks enqueued first `a` then `b`,
whatever their priorities and scheduled times, the first dequeue returns
`a` and the second returns `b`. -/
theorem c1_dequeue_is_fifo (mode : RepoMode) (now : Int) (a b : Task)
    (h : a.id ≠ b.id) :
    (dequeueQ mode now
        (enqueueQ mode b (enqueueQ mode a emptyState).1).1).2.taskId = some a.id
  ∧ (dequeueQ mode now
      (dequeueQ mode now
        (enqueueQ mode b (enqueueQ mode a emptyState).1).1).1).2.taskId
      = some b.id := by
  obtain ⟨aid, aty, apl, apr, ast, arc, amr, aca, asa, asta, acoa, aer, afr, adl⟩ := a
  obtain ⟨bid, bty, bpl, bpr, bst, brc, bmr, bca, bsa, bsta, bcoa, ber, bfr, bdl⟩ := b
  simp only [Task.id] at h
  cases mode <;>
    simp [enqueueQ, dequeueQ, emptyState, aset, adel, aget,
      DeqResult.taskId, h, Ne.symm h]

/-- C1 witness: the FIFO theorem applied to a concrete high-priority task
enqueued after a concrete low-priority one. -/
theorem c1_dequeue_is_fifo_witness :
    (mkTask "a" "low" lowPriority 0).id ≠ (mkTask "b" "high" highPriority 0).id
  ∧ ((dequeueQ RepoMode.absent 0
        (enqueueQ RepoMode.absent (mkTask "b" "high" highPriority 0)
          (enqueueQ RepoMode.absent (mkTask "a" "low" lowPriority 0)
            emptyState).1).1).2.taskId = some (mkTask "a" "low" lowPriority 0).id
    ∧ (dequeueQ RepoMode.absent 0
        (dequeueQ RepoMode.absent 0
          (enqueueQ RepoMode.absent (mkTask "b" "high" highPriority 0)
            (enqueueQ RepoMode.absent (mkTask "a" "low" lowPriority 0)
              emptyState).1).1).1).2.taskId
        = some (mkTask "b" "high" highPriority 0).id) :=
  ⟨by decide,
   c1_dequeue_is_fifo RepoMode.absent 0 (mkTask "a" "low" lowPriority 0)
     (mkTask "b" "high" highPriority 0) (by decide)⟩

/-- C2 counterexample: a task enqueued at instant 0 with scheduled_at = 10 is
returned by a dequeue executed at instant 0, strictly before
max(enqueue time, scheduled_at) = 10; Dequeue is not empty. -/
theorem c2_counterexample :
    (dequeueQ RepoMode.absent 0
      (enqueueQ RepoMode.absent (mkTask "f" "future" lowPriority 10)
        emptyState).1).2.taskId = some "f"
  ∧ (0 : Int) < 10 := by
  refine ⟨by decide, by decide⟩

/-- C2 amended: Dequeue applies no scheduled_at gate at all: an enqueued
task is returned by the next dequeue at every instant `now`, including
instants strictly before its scheduled_at, and before that dequeue it is
visible to the inspection API `GetTask`. -/
theorem c2_dequeue_ignores_schedule (mode : RepoMode) (now : Int) (t : Task) :
    (getTaskQ (enqueueQ mode t emptyState).1 t.id).isSome = true
  ∧ (dequeueQ mode now (enqueueQ mode t emptyState).1).2.taskId = some t.id := by
  obtain ⟨tid, tty, tpl, tpr, tst, trc, tmr, tca, tsa, tsta, tcoa, ter, tfr, tdl⟩ := t
  cases mode <;>
    simp [enqueueQ, dequeueQ, getTaskQ, emptyState, aset, adel, aget,
      DeqResult.taskId]

/-- C8 counterexample: Enqueue of a task whose status is running stores it
with status running when no history store is configured, but with status
pending when one is configured — the cache write and the value visible to
the caller differ between the absent and present history store, because
Enqueue forces `t.Status = PendingStatus` only under `q.repo != nil`. -/
theorem c8_counterexample :
    (getTaskQ (enqueueQ RepoMode.absent
        { mkTask "x" "t" mediumPriority 0 with status := runningStatus }
        emptyState).1 "x").map Task.status = some runningStatus
  ∧ (getTaskQ (enqueueQ RepoMode.ok
        { mkTask "x" "t" mediumPriority 0 with status := runningStatus }
        emptyState).1 "x").map Task.status = some pendingStatus
  ∧ (enqueueQ RepoMode.absent
        { mkTask "x" "t" mediumPriority 0 with status := runningStatus }
        emptyState).2.status = runningStatus
  ∧ (enqueueQ RepoMode.ok
        { mkTask "x" "t" mediumPriority 0 with status := runningStatus }
        emptyState).2.status = pendingStatus
  ∧ runningStatus ≠ pendingStatus := by
  refine ⟨by decide, by decide, by decide, by decide, by decide⟩

/-- C8 amended: a history write failure never changes the cache writes or the
value returned to the caller compared with a successful write, for enqueue,
task update and dead-letter move alike (the error is only logged); update
and dead-letter move are also unchanged when the history store is absent.
Enqueue alone behaves differently between an absent and a configured store,
as `c8_counterexample` shows. -/
theorem c8_history_failure_harmless :
    (∀ (t : Task) (s : QState),
       enqueueQ RepoMode.ok t s = enqueueQ RepoMode.fail t s)
  ∧ (∀ (t : Task) (s : QState),
       updateTaskQ RepoMode.ok t s = updateTaskQ RepoMode.fail t s
     ∧ updateTaskQ RepoMode.absent t s = updateTaskQ RepoMode.ok t s)
  ∧ (∀ (now : Int) (t : Task) (reason : String) (s : QState),
       moveToDeadLetterQ RepoMode.ok now t reason s
         = moveToDeadLetterQ RepoMode.fail now t reason s
     ∧ moveToDeadLetterQ RepoMode.absent now t reason s
         = moveToDeadLetterQ RepoMode.ok now t reason s) :=
  ⟨fun _ _ => rfl, fun _ _ => ⟨rfl, rfl⟩, fun _ _ _ _ => ⟨rfl, rfl⟩⟩

/-- Value of `ctx.Err()` observed by the worker right after the handler
returns. -/
inductive CtxErr where
  | noErr
  | canceled
  | deadlineExceeded
deriving DecidableEq

/-- The worker's per-attempt deadline, `5 * time.Minute`, in seconds. -/
def handlerTimeoutSec : Int := 300

/-- Go semantics of `context.WithTimeout(context.Background(), 5*time.Minute)`
as used in worker.go:100-101: the parent is Background and `cancel` is only
invoked by the deferred call after the outcome check, so at the check the
context's error is `context.DeadlineExceeded` when the handler ran past the
deadline and nil otherwise — never `context.Canceled`. -/
def ctxErrAfter (timeoutSec elapsed : Int) : CtxErr :=
  if elapsed ≥ timeoutSec then CtxErr.deadlineExceeded else CtxErr.noErr

/-- Outcome of `processTask` in worker.go: the cancelled-flag skip, the
cancellation branch, the success path, and the two failure sub-paths
(re-enqueue with backoff, move to dead letter). -/
inductive TaskResult where
  | skippedCancelled
  | cancelledDuringExec (t : Task)
  | completed (t : Task)
  | retried (t : Task)
  | deadLettered (t : Task)

/-- Whether the cancellation branch of worker.go:107-131 was taken. -/
def TaskResult.isCancelledDuringExec : TaskResult → Bool
  | .cancelledDuringExec _ => true
  | _ => false

/-- Whether the task was re-enqueued for retry. -/
def TaskResult.isRetried : TaskResult → Bool
  | .retried _ => true
  | _ => false

/-- Whether the task was moved to the dead-letter queue. -/
def TaskResult.isDeadLettered : TaskResult → Bool
  | .deadLettered _ => true
  | _ => false

/-- The task value the worker ends the attempt with, when there is one. -/
def TaskResult.resTask : TaskResult → Option Task
  | .cancelledDuringExec t => some t
  | .completed t => some t
  | .retried t => some t
  | .deadLettered t => some t
  | .skippedCancelled => none

/-- The linear backoff of worker.go:184,
`time.Duration(t.RetryCount) * 10 * time.Second`, in seconds. -/
def backoffSec (r : Int) : Int := r * 10

/-- Function `handleTaskFailure` of internal/worker/worker.go (lines
166-211): increment the retry count, stamp the error, log the failed
execution (history only); then either re-enqueue with status pending and
`scheduled_at = now + retryCount*10s`, or set status failed, update the
task and move it to the dead-letter queue.  `endTime` is the wall clock at
failure handling. -/
def handleTaskFailureW (mode : RepoMode) (endTime : Int) (s : QState)
    (t : Task) (msg : String) : QState × TaskResult :=
  let t1 := { t with retryCount := t.retryCount + 1, error := msg }
  if t1.retryCount < t1.maxRetries then
    let t2 := { t1 with status := pendingStatus,
                        scheduledAt := endTime + backoffSec t1.retryCount }
    let r := enqueueQ mode t2 s
    (r.1, TaskResult.retried r.2)
  else
    let t2 := { t1 with status := failedStatus }
    let s1 := updateTaskQ mode t2 s
    let r := moveToDeadLetterQ mode endTime t2 msg s1
    (r.1, TaskResult.deadLettered r.2)

/-- Function `processTask` of internal/worker/worker.go (lines 67-142):
skip if the cancellation flag is set; mark running with `started_at`; treat
a missing handler as a failure with message
`"no handler for task type: <type>"`; otherwise run the handler under the
5-minute context, take the cancellation branch only when
`ctx.Err() == context.Canceled`, else classify by the handler's error.
`handlerErr` is the error the handler returns (when invoked) and `elapsed`
the seconds it ran; `now` is the wall clock at the start of the attempt. -/
def processTaskW (mode : RepoMode) (handlers : List String)
    (handlerErr : Option String) (elapsed : Int) (now : Int)
    (s : QState) (t : Task) : QState × TaskResult :=
  if t.id ∈ s.cancelled then (s, TaskResult.skippedCancelled)
  else
    let t1 := { t with status := runningStatus, startedAt := some now }
    let s1 := updateTaskQ mode t1 s
    if t.type ∈ handlers then
      let endTime := now + elapsed
      if ctxErrAfter handlerTimeoutSec elapsed = CtxErr.canceled then
        let t2 := { t1 with completedAt := some endTime,
                            status := cancelledStatus }
        (updateTaskQ mode t2 s1, TaskResult.cancelledDuringExec t2)
      else
        let t2 := { t1 with completedAt := some endTime }
        match handlerErr with
        | some msg => handleTaskFailureW mode endTime s1 t2 msg
        | none =>
          let t3 := { t2 with status := completedStatus }
          (updateTaskQ mode t3 s1, TaskResult.completed t3)
    else
      handleTaskFailureW mode now s1 t1 ("no handler for task type: " ++ t.type)

theorem ctxErrAfter_ne_canceled (timeoutSec elapsed : Int) :
    ctxErrAfter timeoutSec elapsed ≠ CtxErr.canceled := by
  simp only [ctxErrAfter]
  split <;> simp

theorem handleTaskFailureW_not_cancelled (mode : RepoMode) (endTime : Int)
    (s : QState) (t : Task) (msg : String) :
    (handleTaskFailureW mode endTime s t msg).2.isCancelledDuringExec = false := by
  simp only [handleTaskFailureW]
  split <;> rfl

/-- C4: the worker never classifies a deadline-exceeded handler invocation
through the cancellation branch.  The branch guard compares `ctx.Err()`
with `context.Canceled`, but a `WithTimeout` context whose `cancel` is only
deferred reports `context.DeadlineExceeded`, so the cancellation branch is
unreachable and the concrete deadline-exceeding attempt below (handler ran
301 s ≥ 300 s and returned the context's error) lands in the failure/retry
branch instead. -/
theorem c4_timeout_takes_failure_branch :
    (∀ (mode : RepoMode) (handlers : List String) (handlerErr : Option String)
       (elapsed now : Int) (s : QState) (t : Task),
      (processTaskW mode handlers handlerErr elapsed now s t).2.isCancelledDuringExec
        = false)
  ∧ (processTaskW RepoMode.absent ["report"] (some "context deadline exceeded")
      301 0 emptyState (mkTask "w" "report" mediumPriority 0)).2.isRetried = true
  ∧ (processTaskW RepoMode.absent ["report"] (some "context deadline exceeded")
      301 0 emptyState (mkTask "w" "report" mediumPriority 0)).2.isCancelledDuringExec
      = false := by
  refine ⟨?_, by decide, by decide⟩
  intro mode handlers handlerErr elapsed now s t
  by_cases h1 : t.id ∈ s.cancelled
  · simp [processTaskW, h1, TaskResult.isCancelledDuringExec]
  · by_cases h2 : t.type ∈ handlers
    · cases handlerErr with
      | none =>
        simp [processTaskW, h1, h2, ctxErrAfter_ne_canceled,
          TaskResult.isCancelledDuringExec]
      | some msg =>
        simp [processTaskW, h1, h2, ctxErrAfter_ne_canceled,
          handleTaskFailureW_not_cancelled]
    · simp [processTaskW, h1, h2, handleTaskFailureW_not_cancelled]

/-- C5: after a failed attempt the worker dead-letters the task exactly when
the incremented retry count has reached max_retries; a dead-lettered task
passed through status failed (there is no direct pending-to-dead_letter
route: a dead-letter outcome of processTask implies the handler erred or
was missing); and `ShouldMoveToDeadLetter` holds exactly of a failed task
whose retry count has reached max_retries. -/
theorem c5_dead_letter_discipline :
    (∀ t : Task, t.shouldMoveToDeadLetter = true
        ↔ (t.status = failedStatus ∧ t.retryCount ≥ t.maxRetries))
  ∧ (∀ (mode : RepoMode) (endTime : Int) (s : QState) (t : Task) (msg : String),
      (handleTaskFailureW mode endTime s t msg).2.isDeadLettered = true
        ↔ t.retryCount + 1 ≥ t.maxRetries)
  ∧ (∀ (mode : RepoMode) (endTime : Int) (s : QState) (t : Task) (msg : String),
      t.retryCount + 1 ≥ t.maxRetries →
      (handleTaskFailureW mode endTime s t msg).2.resTask.map Task.status
          = some deadLetterStatus
      ∧ (handleTaskFailureW mode endTime s t msg).2.resTask.map Task.retryCount
          = some (t.retryCount + 1)
      ∧ Task.shouldMoveToDeadLetter
          { t with retryCount := t.retryCount + 1, error := msg,
                   status := failedStatus } = true)
  ∧ (∀ (mode : RepoMode) (handlers : List String) (handlerErr : Option String)
       (elapsed now : Int) (s : QState) (t : Task),
      (processTaskW mode handlers handlerErr elapsed now s t).2.isDeadLettered = true →
        (handlerErr ≠ none ∨ t.type ∉ handlers)) := by
  refine ⟨?_, ?_, ?_, ?_⟩
  · intro t
    simp [Task.shouldMoveToDeadLetter, Bool.and_eq_true, decide_eq_true_eq,
      beq_iff_eq, and_comm]
  · intro mode endTime s t msg
    by_cases h : t.retryCount + 1 < t.maxRetries
    · simp [handleTaskFailureW, h, TaskResult.isDeadLettered]
      try omega
    · simp [handleTaskFailureW, h, TaskResult.isDeadLettered]
      try omega
  · intro mode endTime s t msg h
    have h2 : ¬ (t.retryCount + 1 < t.maxRetries) := by omega
    refine ⟨?_, ?_, ?_⟩
    · simp [handleTaskFailureW, h2, TaskResult.resTask, moveToDeadLetterQ]
    · simp [handleTaskFailureW, h2, TaskResult.resTask, moveToDeadLetterQ]
    · simp [Task.shouldMoveToDeadLetter, Bool.and_eq_true, decide_eq_true_eq,
        beq_iff_eq]
      omega
  · intro mode handlers handlerErr elapsed now s t h
    by_cases h1 : t.id ∈ s.cancelled
    · simp [processTaskW, h1, TaskResult.isDeadLettered] at h
    · by_cases h2 : t.type ∈ handlers
      · cases handlerErr with
        | none =>
          exfalso
          simp [processTaskW, h1, h2, ctxErrAfter_ne_canceled,
            TaskResult.isDeadLettered] at h
        | some msg => exact Or.inl (by simp)
      · exact Or.inr h2

/-- C5 witness: the dead-letter discipline applied to a task that failed its
last attempt (retry count 2 of max 3) and to the dead-letter predicate. -/
theorem c5_dead_letter_discipline_witness :
    ({ mkTask "d" "boom" mediumPriority 0 with retryCount := 2 } : Task).retryCount + 1
      ≥ ({ mkTask "d" "boom" mediumPriority 0 with retryCount := 2 } : Task).maxRetries
  ∧ (handleTaskFailureW RepoMode.absent 7 emptyState
      { mkTask "d" "boom" mediumPriority 0 with retryCount := 2 }
      "boom").2.resTask.map Task.status = some deadLetterStatus :=
  ⟨by decide,
   ((c5_dead_letter_discipline.2.2.1 RepoMode.absent 7 emptyState
      { mkTask "d" "boom" mediumPriority 0 with retryCount := 2 }
      "boom" (by decide)).1)⟩

/-- C6: a failed attempt with retries remaining re-enqueues the task with
status pending, retry count incremented, and
`scheduled_at = now + retryCount * 10 s`; the re-enqueued task is the one
stored back in the cache, and the linear backoff is strictly increasing
between consecutive attempts. -/
theorem c6_linear_backoff :
    (∀ (mode : RepoMode) (endTime : Int) (s : QState) (t : Task) (msg : String),
      t.retryCount + 1 < t.maxRetries →
      (handleTaskFailureW mode endTime s t msg).2.isRetried = true
      ∧ (handleTaskFailureW mode endTime s t msg).2.resTask.map Task.status
          = some pendingStatus
      ∧ (handleTaskFailureW mode endTime s t msg).2.resTask.map Task.retryCount
          = some (t.retryCount + 1)
      ∧ (handleTaskFailureW mode endTime s t msg).2.resTask.map Task.scheduledAt
          = some (endTime + backoffSec (t.retryCount + 1))
      ∧ getTaskQ (handleTaskFailureW mode endTime s t msg).1 t.id
          = (handleTaskFailureW mode endTime s t msg).2.resTask)
  ∧ (∀ k : Int, backoffSec k < backoffSec (k + 1)) := by
  constructor
  · intro mode endTime s t msg h
    cases mode <;>
      simp [handleTaskFailureW, h, TaskResult.isRetried, TaskResult.resTask,
        enqueueQ, getTaskQ, aget_aset_self]
  · intro k
    simp only [backoffSec]
    omega

/-- C6 witness: first failure of a fresh task (retry count 0 of max 3) at
time 100 is re-enqueued pending with scheduled_at 110 = 100 + 1 * 10 s. -/
theorem c6_linear_backoff_witness :
    (mkTask "r" "boom" mediumPriority 0).retryCount + 1
      < (mkTask "r" "boom" mediumPriority 0).maxRetries
  ∧ (handleTaskFailureW RepoMode.absent 100 emptyState
      (mkTask "r" "boom" mediumPriority 0) "boom").2.resTask.map Task.scheduledAt
      = some (100 + backoffSec (0 + 1)) :=
  ⟨by decide,
   by
    have h := (c6_linear_backoff.1 RepoMode.absent 100 emptyState
      (mkTask "r" "boom" mediumPriority 0) "boom" (by decide)).2.2.2.1
    simpa using h⟩

/-- C7: a dequeued task whose type has no registered handler is treated
exactly as a handler failure with message
`"no handler for task type: <type>"`: while retries remain it is
re-enqueued pending with that error stamped, and it is not moved to the
dead-letter queue. -/
theorem c7_missing_handler_retries (mode : RepoMode) (handlers : List String)
    (handlerErr : Option String) (elapsed now : Int) (s : QState) (t : Task)
    (hc : t.id ∉ s.cancelled) (hh : t.type ∉ handlers)
    (hr : t.retryCount + 1 < t.maxRetries) :
    (processTaskW mode handlers handlerErr elapsed now s t).2.isRetried = true
  ∧ (processTaskW mode handlers handlerErr elapsed now s t).2.resTask.map Task.error
      = some ("no handler for task type: " ++ t.type)
  ∧ (processTaskW mode handlers handlerErr elapsed now s t).2.resTask.map Task.status
      = some pendingStatus
  ∧ (processTaskW mode handlers handlerErr elapsed now s t).2.isDeadLettered
      = false := by
  cases mode <;>
    simp [processTaskW, hc, hh, handleTaskFailureW, hr, enqueueQ,
      TaskResult.isRetried, TaskResult.resTask, TaskResult.isDeadLettered]

/-- C7 witness: a task of type "unknown42" with no handler registered and
retries remaining is re-enqueued with the expected error message. -/
theorem c7_missing_handler_retries_witness :
    (mkTask "u" "unknown42" mediumPriority 0).id ∉ (emptyState).cancelled
  ∧ ((processTaskW RepoMode.absent ["email"] none 0 0 emptyState
        (mkTask "u" "unknown42" mediumPriority 0)).2.isRetried = true
    ∧ (processTaskW RepoMode.absent ["email"] none 0 0 emptyState
        (mkTask "u" "unknown42" mediumPriority 0)).2.resTask.map Task.error
        = some ("no handler for task type: " ++ (mkTask "u" "unknown42" mediumPriority 0).type)
    ∧ (processTaskW RepoMode.absent ["email"] none 0 0 emptyState
        (mkTask "u" "unknown42" mediumPriority 0)).2.resTask.map Task.status
        = some pendingStatus
    ∧ (processTaskW RepoMode.absent ["email"] none 0 0 emptyState
        (mkTask "u" "unknown42" mediumPriority 0)).2.isDeadLettered = false) :=
  ⟨by decide,
   c7_missing_handler_retries RepoMode.absent ["email"] none 0 0 emptyState
     (mkTask "u" "unknown42" mediumPriority 0) (by decide) (by decide) (by decide)⟩

/-- Error returned by `CancelTask`.  The messages, fixed by the test suite,
are "task not found" and "cannot cancel task with status: <status>". -/
inductive CancelError where
  | notFound
  | cannotCancel (st : TaskStatus)
deriving DecidableEq

/-- A terminal status per the spec: completed, cancelled or dead_letter. -/
def terminalStatus (st : TaskStatus) : Bool :=
  st == completedStatus || st == cancelledStatus || st == deadLetterStatus

/-- Modelled from the spec: `Queue.CancelTask` is called by worker.go,
handlers.go and the test suite but its definition is missing from the
source snapshot.  Per spec section 4.3 it fails with `cannot_cancel` on a
terminal status (completed / cancelled / dead_letter), and otherwise sets
`status := cancelled`, `completed_at := now`, and the sticky
`cancelled:{id}` flag; the tests additionally fix the not-found failure on
an unknown id and a best-effort history update. -/
def cancelTaskQ (_mode : RepoMode) (now : Int) (s : QState) (id : String) :
    QState × Option CancelError :=
  match aget s.tasks id with
  | none => (s, some CancelError.notFound)
  | some t =>
    if terminalStatus t.status then (s, some (CancelError.cannotCancel t.status))
    else
      let t1 := { t with status := cancelledStatus, completedAt := some now }
      ({ s with tasks := aset s.tasks id t1, cancelled := id :: s.cancelled },
       none)

/-- Modelled from the spec: `Queue.IsCancelled` reads the sticky
`cancelled:{id}` flag. -/
def isCancelledQ (s : QState) (id : String) : Bool :=
  s.cancelled.contains id

/-- HTTP status chosen by `handleCancelTask` of internal/api/handlers.go
(lines 323-356): an error whose message contains "not found" maps to 404,
one containing "cannot cancel" maps to 400, any other error to 500, and
success to 200.  The two error messages above contain exactly one of the
two substrings each, so the dispatch is by error kind. -/
def cancelHttpStatus : Option CancelError → Nat
  | some CancelError.notFound => 404
  | some (CancelError.cannotCancel _) => 400
  | none => 200

/-- C3: cancel_task fails with cannot_cancel exactly on a task in a terminal
status; on a non-terminal task it succeeds, setting status cancelled,
completed_at to now and the sticky cancellation flag; and the HTTP layer
maps cannot_cancel to status 400. -/
theorem c3_cancel_task :
    (∀ (mode : RepoMode) (now : Int) (s : QState) (id : String) (t : Task),
      aget s.tasks id = some t →
      ((cancelTaskQ mode now s id).2 = some (CancelError.cannotCancel t.status)
        ↔ terminalStatus t.status = true))
  ∧ (∀ (mode : RepoMode) (now : Int) (s : QState) (id : String) (t : Task),
      aget s.tasks id = some t → terminalStatus t.status = false →
      (cancelTaskQ mode now s id).2 = none
      ∧ (getTaskQ (cancelTaskQ mode now s id).1 id).map Task.status
          = some cancelledStatus
      ∧ (getTaskQ (cancelTaskQ mode now s id).1 id).map Task.completedAt
          = some (some now)
      ∧ isCancelledQ (cancelTaskQ mode now s id).1 id = true)
  ∧ (∀ st : TaskStatus,
      cancelHttpStatus (some (CancelError.cannotCancel st)) = 400) := by
  refine ⟨?_, ?_, fun _ => rfl⟩
  · intro mode now s id t ht
    constructor
    · intro h
      by_contra hterm
      simp [cancelTaskQ, ht, hterm] at h
    · intro h
      simp [cancelTaskQ, ht, h]
  · intro mode now s id t ht hterm
    refine ⟨?_, ?_, ?_, ?_⟩ <;>
      simp [cancelTaskQ, ht, hterm, getTaskQ, isCancelledQ, aget_aset_self]

/-- C3 witness: cancelling a pending task succeeds and stamps it; the
cannot_cancel error maps to HTTP 400. -/
theorem c3_cancel_task_witness :
    aget (enqueueQ RepoMode.absent (mkTask "p" "email" mediumPriority 0)
        emptyState).1.tasks "p" = some (mkTask "p" "email" mediumPriority 0)
  ∧ terminalStatus (mkTask "p" "email" mediumPriority 0).status = false
  ∧ ((cancelTaskQ RepoMode.absent 5
        (enqueueQ RepoMode.absent (mkTask "p" "email" mediumPriority 0)
          emptyState).1 "p").2 = none
    ∧ (getTaskQ (cancelTaskQ RepoMode.absent 5
        (enqueueQ RepoMode.absent (mkTask "p" "email" mediumPriority 0)
          emptyState).1 "p").1 "p").map Task.status = some cancelledStatus
    ∧ (getTaskQ (cancelTaskQ RepoMode.absent 5
        (enqueueQ RepoMode.absent (mkTask "p" "email" mediumPriority 0)
          emptyState).1 "p").1 "p").map Task.completedAt = some (some 5)
    ∧ isCancelledQ (cancelTaskQ RepoMode.absent 5
        (enqueueQ RepoMode.absent (mkTask "p" "email" mediumPriority 0)
          emptyState).1 "p").1 "p" = true) :=
  ⟨rfl, by decide,
   c3_cancel_task.2.1 RepoMode.absent 5
     (enqueueQ RepoMode.absent (mkTask "p" "email" mediumPriority 0)
       emptyState).1 "p" (mkTask "p" "email" mediumPriority 0)
     rfl (by decide)⟩

/-- Decoded body of POST /api/tasks (struct `TaskRequest` of handlers.go):
pointer fields distinguish an absent `priority` / `schedule_in`. -/
structure TaskRequest where
  type : String
  payload : Option (List (String × Json))
  priority : Option TaskPriority
  scheduleIn : Option Int

/-- Handler `createTask` of internal/api/handlers.go (lines 235-282): reject
an empty type with 400; default the priority to `MediumPriority` when the
field is absent; build the task with `NewTask`; override `scheduled_at`
when `schedule_in` is present; enqueue; answer 201 with the task.  The
generated UUID and the wall clock are the parameters `freshId` and `now`. -/
def createTaskH (mode : RepoMode) (now : Int) (freshId : String)
    (req : TaskRequest) (s : QState) : QState × Except Nat (Nat × Task) :=
  if req.type = "" then (s, Except.error 400)
  else
    let priority := match req.priority with
      | none => mediumPriority
      | some p => p
    let t0 := newTask freshId req.type req.payload priority now
    let t1 := match req.scheduleIn with
      | none => t0
      | some sec => { t0 with scheduledAt := now + sec }
    let r := enqueueQ mode t1 s
    (r.1, Except.ok (201, r.2))

/-- Priority of the task in a 201 response, when the request succeeded. -/
def createdPriority : Except Nat (Nat × Task) → Option TaskPriority
  | Except.ok (_, t) => some t.priority
  | Except.error _ => none

/-- C10: a valid POST /api/tasks body without a priority field yields a 201
task with priority medium, both in the response and as stored by the
enqueue; an explicit priority is used verbatim. -/
theorem c10_default_priority_medium :
    (∀ (mode : RepoMode) (now : Int) (freshId : String) (s : QState)
       (payload : Option (List (String × Json))) (scheduleIn : Option Int)
       (ty : String), ty ≠ "" →
      createdPriority (createTaskH mode now freshId
          { type := ty, payload := payload, priority := none,
            scheduleIn := scheduleIn } s).2 = some mediumPriority
      ∧ (getTaskQ (createTaskH mode now freshId
          { type := ty, payload := payload, priority := none,
            scheduleIn := scheduleIn } s).1 freshId).map Task.priority
          = some mediumPriority)
  ∧ (∀ (mode : RepoMode) (now : Int) (freshId : String) (s : QState)
       (payload : Option (List (String × Json))) (scheduleIn : Option Int)
       (ty : String) (p : TaskPriority), ty ≠ "" →
      createdPriority (createTaskH mode now freshId
          { type := ty, payload := payload, priority := some p,
            scheduleIn := scheduleIn } s).2 = some p) := by
  constructor
  · intro mode now freshId s payload scheduleIn ty hty
    cases mode <;> cases scheduleIn <;>
      simp [createTaskH, hty, createdPriority, newTask, enqueueQ, getTaskQ,
        aget_aset_self]
  · intro mode now freshId s payload scheduleIn ty p hty
    cases mode <;> cases scheduleIn <;>
      simp [createTaskH, hty, createdPriority, newTask, enqueueQ]

/-- C10 witness: a request of type "email" with no priority field creates a
medium-priority task, stored and returned alike. -/
theorem c10_default_priority_medium_witness :
    ("email" : String) ≠ ""
  ∧ (createdPriority (createTaskH RepoMode.absent 0 "fresh-id"
        { type := "email", payload := none, priority := none,
          scheduleIn := none } emptyState).2 = some mediumPriority
    ∧ (getTaskQ (createTaskH RepoMode.absent 0 "fresh-id"
        { type := "email", payload := none, priority := none,
          scheduleIn := none } emptyState).1 "fresh-id").map Task.priority
        = some mediumPriority) :=
  ⟨by decide,
   c10_default_priority_medium.1 RepoMode.absent 0 "fresh-id" emptyState
     none none "email" (by decide)⟩

end Nexq
